import Mathlib

/-!
Verification of the storage layer of the q_native money-market contract
(`src/contracts/q_native/src/state.rs`), shallowly embedded in Lean 4.

The contract's storage is the host key-value store (bytes to bytes); we model
byte strings as `List Nat` and the store as a partial map.  Rust `u128` values
are modelled as `Nat` with explicit `< 2 ^ 128` bounds where they matter.
Fallible Rust code (`StdResult`) is modelled with an explicit result type that
also records panics (Rust slice indexing out of bounds aborts execution; the
embedding must distinguish that from a returned `StdError`).
-/

/-- Model of `cosmwasm_std::StdError` restricted to the variants this layer
produces: `GenericErr` (from `StdError::generic_err`), `NotFound`
(from `Singleton::load` on a missing key) and `ParseErr` (deserialization
failure of a singleton's stored bytes). -/
inductive StdErr where
  | genericErr : String → StdErr
  | notFound : String → StdErr
  | parseErr : String → String → StdErr
deriving DecidableEq

/-- Outcome of running a piece of Rust code: a returned `Ok` value, a returned
`Err StdError`, or a panic (abort).  `StdResult<T>` only covers the first two;
the third arises from out-of-bounds slice indexing. -/
inductive RRes (α : Type) where
  | ok : α → RRes α
  | err : StdErr → RRes α
  | abort : String → RRes α
deriving DecidableEq

/-- The host key-value store: a partial map from byte-string keys to
byte-string values. -/
def Store : Type := List Nat → Option (List Nat)

/-- The empty store: no key is bound. -/
def Store.empty : Store := fun _ => none

/-- `Storage::set`: bind `k` to `v`, leaving every other key unchanged. -/
def Store.set (s : Store) (k v : List Nat) : Store :=
  fun q => if q = k then some v else s q

/-- Byte content of the namespace constant `BALANCE_PREFIX = b"balances"`. -/
def BALANCE_NS : List Nat := [98, 97, 108, 97, 110, 99, 101, 115]

/-- Byte content of the namespace constant `ALLOWANCE_PREFIX = b"allowance"`. -/
def ALLOWANCE_NS : List Nat := [97, 108, 108, 111, 119, 97, 110, 99, 101]

/-- Byte content of the namespace constant `CONFIG_PREFIX = b"config"`. -/
def CONFIG_NS : List Nat := [99, 111, 110, 102, 105, 103]

/-- Byte content of the namespace constant `STATE_PREFIX = b"state"`. -/
def STATE_NS : List Nat := [115, 116, 97, 116, 101]

/-- Byte content of the namespace constant `BORROW_PREFIX = b"borrow"`. -/
def BORROW_NS : List Nat := [98, 111, 114, 114, 111, 119]

/-- `cosmwasm_storage::length_prefixed::encode_length`: the two-byte
big-endian length of a namespace.  (The Rust function panics for lengths
above `0xFFFF`; theorems that depend on injectivity of the prefixing do not
need that bound, so the model is total.) -/
def encode_length (ns : List Nat) : List Nat :=
  [ns.length / 256 % 256, ns.length % 256]

/-- `cosmwasm_storage::length_prefixed::to_length_prefixed`: a namespace
preceded by its two-byte big-endian length. -/
def to_length_prefixed (ns : List Nat) : List Nat :=
  encode_length ns ++ ns

/-- `ReadonlyPrefixedStorage::new(ns, store)` as a store view: every lookup
goes to the underlying store under the length-prefixed namespace followed by
the key.  Nesting two views concatenates the two prefixes, exactly as the
Rust storage helpers do. -/
def prefixView (ns : List Nat) (s : Store) : Store :=
  fun key => s (to_length_prefixed ns ++ key)

/-- Big-endian fixed-width encoding: `toBE w n` is the `w`-byte big-endian
encoding of `n % 256 ^ w`; `toBE 16 n` models `u128::to_be_bytes`. -/
def toBE : Nat → Nat → List Nat
  | 0, _ => []
  | w + 1, n => toBE w (n / 256) ++ [n % 256]

/-- Big-endian decoding of a byte string, most significant byte first;
models `u128::from_be_bytes` on a 16-byte array. -/
def fromBE (bs : List Nat) : Nat :=
  bs.foldl (fun acc d => acc * 256 + d) 0

/-- Rust range slicing `&data[0..w]`: the first `w` bytes when the slice is
long enough, a panic otherwise. -/
def sliceTo (data : List Nat) (w : Nat) : RRes (List Nat) :=
  if w ≤ data.length then .ok (data.take w) else .abort "index out of range"

/-- `bytes_to_u128` from `state.rs`: slice the first 16 bytes of `data`
(Rust `data[0..16]`, which panics when `data` is shorter than 16 bytes) and
convert them with `TryInto<[u8; 16]>` (which succeeds exactly when the slice
has length 16) into `u128::from_be_bytes`; the `Err` arm returns the
`Corrupted data` generic error. -/
def bytes_to_u128 (data : List Nat) : RRes Nat :=
  match sliceTo data 16 with
  | .abort m => .abort m
  | .err e => .err e
  | .ok bytes =>
      if bytes.length = 16 then .ok (fromBE bytes)
      else .err (.genericErr "Corrupted data found. 16 byte expected.")

/-- `to_u128` from `state.rs`: read `key` from the (possibly prefixed) store;
a missing key is `Ok(0)`, a present value is decoded with `bytes_to_u128`. -/
def to_u128 (store : Store) (key : List Nat) : RRes Nat :=
  match store key with
  | some data => bytes_to_u128 data
  | none => .ok 0

/-- `get_balance` from `state.rs`: `to_u128` against the balance-namespace
view of the store, keyed by the owner's canonical address bytes. -/
def get_balance (store : Store) (owner : List Nat) : RRes Nat :=
  to_u128 (prefixView BALANCE_NS store) owner

/-- `get_allowance` from `state.rs`: `to_u128` against the owner's
sub-namespace of the allowance-namespace view, keyed by the spender. -/
def get_allowance (store : Store) (owner spender : List Nat) : RRes Nat :=
  to_u128 (prefixView owner (prefixView ALLOWANCE_NS store)) spender

/-- `set_allowance` from `state.rs`: write the 16-byte big-endian encoding of
`amount` under the spender key of the owner's sub-namespace of the allowance
namespace.  The Rust function always returns `Ok(())`; the model returns the
updated store. -/
def set_allowance (store : Store) (owner spender : List Nat) (amount : Nat) :
    Store :=
  Store.set store
    (to_length_prefixed ALLOWANCE_NS ++ (to_length_prefixed owner ++ spender))
    (toBE 16 amount)

/-!
### Structured serialization (model of `to_vec` / `from_slice`)

`Config`, `State` and `Option<BorrowSnapshot>` are stored through
`Singleton`/`Bucket`, which serialize with serde JSON (`to_vec`) and
deserialize with `from_slice`.  The byte format of that dependency is not part
of this repository; what the storage layer relies on is its contract:
serialization is total and injective, `from_slice (to_vec x) = Ok x`, trailing
or malformed input fails, and `None` serializes to the distinguished `null`
document, which does not deserialize as a `BorrowSnapshot` struct.  The model
below is an executable self-delimiting codec with exactly that contract:
each numeric field is a length-prefixed little-endian base-256 digit string,
each text field a length-prefixed byte string, fields in declaration order,
and the whole document must be consumed exactly.
-/

/-- Model of serializing one unsigned integer field: base-256 digits of `n`
preceded by their count. -/
def encNat (n : Nat) : List Nat :=
  (Nat.digits 256 n).length :: Nat.digits 256 n

/-- Model of deserializing one unsigned integer field; returns the value and
the unconsumed remainder, or `none` on truncated input. -/
def decNat (bs : List Nat) : Option (Nat × List Nat) :=
  match bs with
  | [] => none
  | len :: rest =>
      if len ≤ rest.length then
        some (Nat.ofDigits 256 (rest.take len), rest.drop len)
      else none

/-- Model of serializing one text field: the bytes preceded by their
(length-prefixed) count. -/
def encBytes (l : List Nat) : List Nat :=
  encNat l.length ++ l

/-- Model of deserializing one text field. -/
def decBytes (bs : List Nat) : Option (List Nat × List Nat) :=
  match decNat bs with
  | some (len, rest) =>
      if len ≤ rest.length then some (rest.take len, rest.drop len) else none
  | none => none

/-- `Config` struct from `state.rs`.  Text fields (`name`, `symbol`, `denom`)
are byte strings; `Uint128` fields and the `u8` field are `Nat`. -/
structure Config where
  name : List Nat
  total_supply : Nat
  decimals : Nat
  symbol : List Nat
  initial_exchange_rate : Nat
  reserve_factor : Nat
  borrow_index : Nat
  max_borrow_rate : Nat
  denom : List Nat
deriving DecidableEq

/-- `State` struct from `state.rs`. -/
structure State where
  cash : Nat
  block_number : Nat
  total_reserves : Nat
  total_borrows : Nat
  exchange_rate : Nat
  reserve_factor : Nat
  max_borrow_rate : Nat
  borrow_index : Nat
deriving DecidableEq

/-- `BorrowSnapshot` struct from `state.rs`. -/
structure BorrowSnapshot where
  principal : Nat
  interest_index : Nat
deriving DecidableEq

/-- Model of `to_vec::<Config>`: the nine fields in declaration order. -/
def encConfig (c : Config) : List Nat :=
  encBytes c.name ++ encNat c.total_supply ++ encNat c.decimals ++
    encBytes c.symbol ++ encNat c.initial_exchange_rate ++
    encNat c.reserve_factor ++ encNat c.borrow_index ++
    encNat c.max_borrow_rate ++ encBytes c.denom

/-- Model of `from_slice::<Config>`: the nine fields in declaration order,
requiring the input to be consumed exactly. -/
def decConfig (bs : List Nat) : Option Config :=
  match decBytes bs with
  | none => none
  | some (name, r1) =>
  match decNat r1 with
  | none => none
  | some (total_supply, r2) =>
  match decNat r2 with
  | none => none
  | some (decimals, r3) =>
  match decBytes r3 with
  | none => none
  | some (symbol, r4) =>
  match decNat r4 with
  | none => none
  | some (initial_exchange_rate, r5) =>
  match decNat r5 with
  | none => none
  | some (reserve_factor, r6) =>
  match decNat r6 with
  | none => none
  | some (borrow_index, r7) =>
  match decNat r7 with
  | none => none
  | some (max_borrow_rate, r8) =>
  match decBytes r8 with
  | none => none
  | some (denom, r9) =>
  if r9 = [] then
    some ⟨name, total_supply, decimals, symbol, initial_exchange_rate,
      reserve_factor, borrow_index, max_borrow_rate, denom⟩
  else none

/-- Model of `to_vec::<State>`: the eight fields in declaration order. -/
def encState (s : State) : List Nat :=
  encNat s.cash ++ encNat s.block_number ++ encNat s.total_reserves ++
    encNat s.total_borrows ++ encNat s.exchange_rate ++
    encNat s.reserve_factor ++ encNat s.max_borrow_rate ++
    encNat s.borrow_index

/-- Model of `from_slice::<State>`. -/
def decState (bs : List Nat) : Option State :=
  match decNat bs with
  | none => none
  | some (cash, r1) =>
  match decNat r1 with
  | none => none
  | some (block_number, r2) =>
  match decNat r2 with
  | none => none
  | some (total_reserves, r3) =>
  match decNat r3 with
  | none => none
  | some (total_borrows, r4) =>
  match decNat r4 with
  | none => none
  | some (exchange_rate, r5) =>
  match decNat r5 with
  | none => none
  | some (reserve_factor, r6) =>
  match decNat r6 with
  | none => none
  | some (max_borrow_rate, r7) =>
  match decNat r7 with
  | none => none
  | some (borrow_index, r8) =>
  if r8 = [] then
    some ⟨cash, block_number, total_reserves, total_borrows, exchange_rate,
      reserve_factor, max_borrow_rate, borrow_index⟩
  else none

/-- Model of `to_vec::<BorrowSnapshot>`: the two fields in order. -/
def encSnapshot (s : BorrowSnapshot) : List Nat :=
  encNat s.principal ++ encNat s.interest_index

/-- Model of `from_slice::<BorrowSnapshot>`. -/
def decSnapshot (bs : List Nat) : Option BorrowSnapshot :=
  match decNat bs with
  | none => none
  | some (principal, r1) =>
  match decNat r1 with
  | none => none
  | some (interest_index, r2) =>
  if r2 = [] then some ⟨principal, interest_index⟩ else none

/-- Model of the serde JSON `null` document, the serialization of `None`. -/
def nullBytes : List Nat := [110, 117, 108, 108]

/-- Model of `to_vec::<Option<BorrowSnapshot>>`: `None` is the `null`
document, `Some s` is the serialization of `s` itself. -/
def encOptSnapshot : Option BorrowSnapshot → List Nat
  | none => nullBytes
  | some s => encSnapshot s

/-- The storage key of the `Config` singleton: `Singleton::new(storage,
CONFIG_PREFIX)` keys its single slot by the length-prefixed namespace. -/
def configKey : List Nat := to_length_prefixed CONFIG_NS

/-- The storage key of the `State` singleton. -/
def stateKey : List Nat := to_length_prefixed STATE_NS

/-- `get_config` from `state.rs`: `ReadonlySingleton::load`, which is
`must_deserialize` of the raw lookup — a missing key is the `NotFound` error
for the stored type, present bytes are deserialized, and a deserialization
failure is a `ParseErr`. -/
def get_config (store : Store) : RRes Config :=
  match store configKey with
  | none => .err (.notFound "q_native::state::Config")
  | some v =>
      match decConfig v with
      | some c => .ok c
      | none => .err (.parseErr "q_native::state::Config" "invalid data")

/-- `set_config` from `state.rs`: `Singleton::save`, an unconditional
overwrite of the singleton slot with the serialized struct.  The Rust
function always returns `Ok(())`; the model returns the updated store. -/
def set_config (store : Store) (c : Config) : Store :=
  Store.set store configKey (encConfig c)

/-- `get_state` from `state.rs`: same shape as `get_config` over the
`state` namespace. -/
def get_state (store : Store) : RRes State :=
  match store stateKey with
  | none => .err (.notFound "q_native::state::State")
  | some v =>
      match decState v with
      | some s => .ok s
      | none => .err (.parseErr "q_native::state::State" "invalid data")

/-- `set_state` from `state.rs`. -/
def set_state (store : Store) (s : State) : Store :=
  Store.set store stateKey (encState s)

/-- The storage key of an owner's borrow-bucket entry: `Bucket::new(BORROW_PREFIX, store)`
prefixes every key with the length-prefixed namespace. -/
def borrowKey (owner : List Nat) : List Nat :=
  to_length_prefixed BORROW_NS ++ owner

/-- `get_borrow_balance` from `state.rs`: `ReadonlyBucket::<BorrowSnapshot>::may_load`,
matched so that only `Ok(Some(snapshot))` yields `Some`; both a missing key
(`Ok(None)`) and a deserialization failure (`Err`) fall to the wildcard arm
and yield `None`. -/
def get_borrow_balance (store : Store) (owner : List Nat) :
    Option BorrowSnapshot :=
  match store (borrowKey owner) with
  | none => none
  | some v =>
      match decSnapshot v with
      | some s => some s
      | none => none

/-- `set_borrow_balance` from `state.rs`: `Bucket::<Option<BorrowSnapshot>>::save`,
which serializes the `Option` (so `None` persists the `null` document under
the key) and writes it.  Serialization of this type is total, so the
`Err` arm of the Rust `match` is never taken and the function returns
`Ok(())`; the model returns the updated store. -/
def set_borrow_balance (store : Store) (owner : List Nat)
    (snapshot : Option BorrowSnapshot) : Store :=
  Store.set store (borrowKey owner) (encOptSnapshot snapshot)

/-- A store holding an 8-byte value directly under a balance key: the
corruption scenario of the spec (fewer than 16 bytes under a scalar key). -/
def shortBalanceStore : Store :=
  Store.set Store.empty (to_length_prefixed BALANCE_NS ++ [7])
    [0, 0, 0, 0, 0, 0, 0, 1]

/-- A store holding a 17-byte value (the encoding of 5 followed by one stray
byte) directly under an allowance key: the over-long corruption scenario. -/
def longAllowanceStore : Store :=
  Store.set Store.empty
    (to_length_prefixed ALLOWANCE_NS ++ (to_length_prefixed [1] ++ [2]))
    (toBE 16 5 ++ [99])

/-- A store holding one undecodable byte under a borrow key. -/
def corruptBorrowStore : Store :=
  Store.set Store.empty (borrowKey [2]) [9]

/-!
### Codec round-trip lemmas
-/

theorem decNat_encNat (n : Nat) (r : List Nat) :
    decNat (encNat n ++ r) = some (n, r) := by
  simp [encNat, decNat, List.take_append, List.drop_append, Nat.ofDigits_digits]

theorem decBytes_encBytes (l : List Nat) (r : List Nat) :
    decBytes (encBytes l ++ r) = some (l, r) := by
  simp [encBytes, decBytes, List.append_assoc, decNat_encNat,
    List.take_append, List.drop_append]

theorem decNat_encNat_nil (n : Nat) : decNat (encNat n) = some (n, []) := by
  simpa using decNat_encNat n []

theorem decBytes_encBytes_nil (l : List Nat) :
    decBytes (encBytes l) = some (l, []) := by
  simpa using decBytes_encBytes l []

theorem decConfig_encConfig (c : Config) : decConfig (encConfig c) = some c := by
  obtain ⟨n, ts, d, sy, ie, rf, bi, mb, de⟩ := c
  simp [encConfig, decConfig, List.append_assoc, decNat_encNat,
    decBytes_encBytes, decNat_encNat_nil, decBytes_encBytes_nil]

theorem decState_encState (s : State) : decState (encState s) = some s := by
  obtain ⟨c, bn, tr, tb, er, rf, mb, bi⟩ := s
  simp [encState, decState, List.append_assoc, decNat_encNat, decNat_encNat_nil]

theorem decSnapshot_encSnapshot (s : BorrowSnapshot) :
    decSnapshot (encSnapshot s) = some s := by
  obtain ⟨p, i⟩ := s
  simp [encSnapshot, decSnapshot, List.append_assoc, decNat_encNat,
    decNat_encNat_nil]

theorem decSnapshot_nullBytes : decSnapshot nullBytes = none := by
  simp [decSnapshot, nullBytes, decNat]

/-!
### Facts about the fixed-width big-endian codec
-/

theorem toBE_length (w n : Nat) : (toBE w n).length = w := by
  induction w generalizing n with
  | zero => rfl
  | succ w ih => simp [toBE, ih]

theorem fromBE_append_byte (l : List Nat) (x : Nat) :
    fromBE (l ++ [x]) = fromBE l * 256 + x := by
  simp [fromBE]

theorem fromBE_toBE (w n : Nat) : fromBE (toBE w n) = n % 256 ^ w := by
  induction w generalizing n with
  | zero => simp [toBE, fromBE, Nat.mod_one]
  | succ w ih =>
      rw [toBE, fromBE_append_byte, ih]
      rw [pow_succ, mul_comm (256 ^ w) 256, Nat.mod_mul]
      ring

/-!
### Key disjointness of the length-prefixed namespacing
-/

theorem lp_append_inj (a b x : List Nat)
    (h : to_length_prefixed a ++ x = to_length_prefixed b ++ x) : a = b := by
  have hlen : a.length = b.length := by
    have hl := congrArg List.length h
    simp [to_length_prefixed, encode_length] at hl
    omega
  have h1 : to_length_prefixed a = to_length_prefixed b :=
    (List.append_inj h (by simp [to_length_prefixed, encode_length, hlen])).1
  have h2 : encode_length a ++ a = encode_length b ++ b := h1
  exact (List.append_inj h2 (by simp [encode_length])).2

/-!
### Claim theorems
-/

/-- C10: `bytes_to_u128` is total only on inputs of at least 16 bytes: any
input of length at least 16 decodes `Ok` to the big-endian value of its first
16 bytes (ignoring the rest), the explicit `Corrupted data` error arm is
unreachable for every input (indeed no `Err` is ever returned), and any input
shorter than 16 bytes panics on the out-of-bounds slice `data[0..16]` before
the length check can run. -/
theorem c10_bytes_to_u128_totality :
    (∀ data : List Nat, 16 ≤ data.length →
      bytes_to_u128 data = .ok (fromBE (data.take 16))) ∧
    (∀ (data : List Nat) (e : StdErr), bytes_to_u128 data ≠ .err e) ∧
    (∀ data : List Nat, data.length < 16 →
      bytes_to_u128 data = .abort "index out of range") := by
  refine ⟨?_, ?_, ?_⟩
  · intro data h
    simp [bytes_to_u128, sliceTo, h, List.length_take, Nat.min_eq_left h]
  · intro data e
    by_cases h : 16 ≤ data.length
    · simp [bytes_to_u128, sliceTo, h, List.length_take, Nat.min_eq_left h]
    · simp [bytes_to_u128, sliceTo, h]
  · intro data h
    simp [bytes_to_u128, sliceTo, Nat.not_le.mpr h]

/-- Witness for C10 at concrete inputs: a 17-byte value decodes `Ok` to its
first 16 bytes, a 3-byte value is neither an `Err` nor anything but a panic. -/
theorem c10_witness :
    bytes_to_u128 (toBE 16 5 ++ [99]) = .ok (fromBE ((toBE 16 5 ++ [99]).take 16)) ∧
    bytes_to_u128 [1, 2, 3] ≠ .err (.genericErr "Corrupted data found. 16 byte expected.") ∧
    bytes_to_u128 [1, 2, 3] = .abort "index out of range" :=
  ⟨c10_bytes_to_u128_totality.1 (toBE 16 5 ++ [99]) (by decide),
   c10_bytes_to_u128_totality.2.1 [1, 2, 3] _,
   c10_bytes_to_u128_totality.2.2 [1, 2, 3] (by decide)⟩

/-- C1 (failing input): an 8-byte value stored directly under a balance key
does not make `get_balance` return the `CorruptedData` error the spec
promises — the out-of-bounds slice in `bytes_to_u128` panics instead. -/
theorem c1_short_value_panics :
    get_balance shortBalanceStore [7] = .abort "index out of range" := by
  rfl

/-- C7 (failing input): a 17-byte value stored directly under an allowance
key does not make `get_allowance` surface a storage error as the spec
promises — the code silently decodes the first 16 bytes and returns `Ok 5`,
coercing the corrupt value. -/
theorem c7_long_value_truncates :
    get_allowance longAllowanceStore [1] [2] = .ok 5 := by
  rfl

/-- C2: for every `u128` value `v` (every `Nat` below `2 ^ 128`), decoding
the 16-byte big-endian encoding of `v` — `bytes_to_u128` applied to the model
of `v.to_be_bytes()` — returns `Ok v`: encode-then-decode is the identity
over the full `u128` range. -/
theorem c2_u128_roundtrip (v : Nat) (h : v < 2 ^ 128) :
    bytes_to_u128 (toBE 16 v) = .ok v := by
  have hlen : (toBE 16 v).length = 16 := toBE_length 16 v
  have h16 : (16 : Nat) ≤ (toBE 16 v).length := le_of_eq hlen.symm
  have hv : v % 256 ^ 16 = v := Nat.mod_eq_of_lt (by norm_num at h ⊢; omega)
  calc bytes_to_u128 (toBE 16 v)
      = .ok (fromBE ((toBE 16 v).take 16)) :=
        c10_bytes_to_u128_totality.1 (toBE 16 v) h16
    _ = .ok (fromBE (toBE 16 v)) := by
        rw [List.take_of_length_le (le_of_eq hlen)]
    _ = .ok v := by rw [fromBE_toBE, hv]

/-- Witness for C2 at the endpoints of the `u128` range: 0 and `2 ^ 128 - 1`
both round-trip. -/
theorem c2_witness :
    0 < 2 ^ 128 ∧ 2 ^ 128 - 1 < 2 ^ 128 ∧
    bytes_to_u128 (toBE 16 0) = .ok 0 ∧
    bytes_to_u128 (toBE 16 (2 ^ 128 - 1)) = .ok (2 ^ 128 - 1) :=
  ⟨by norm_num, by norm_num, c2_u128_roundtrip 0 (by norm_num),
   c2_u128_roundtrip (2 ^ 128 - 1) (by norm_num)⟩

/-- C3: a key absent from the balance namespace reads as `Ok 0` through
`get_balance`, and a pair absent from the allowance namespace reads as `Ok 0`
through `get_allowance`; neither returns an error for a missing key. -/
theorem c3_absent_reads_zero :
    (∀ (store : Store) (owner : List Nat),
      store (to_length_prefixed BALANCE_NS ++ owner) = none →
      get_balance store owner = .ok 0) ∧
    (∀ (store : Store) (owner spender : List Nat),
      store (to_length_prefixed ALLOWANCE_NS ++
        (to_length_prefixed owner ++ spender)) = none →
      get_allowance store owner spender = .ok 0) := by
  constructor
  · intro store owner h
    simp [get_balance, to_u128, prefixView, h]
  · intro store owner spender h
    simp [get_allowance, to_u128, prefixView, h]

/-- Witness for C3 on the empty store at concrete addresses. -/
theorem c3_witness :
    get_balance Store.empty [4] = .ok 0 ∧
    get_allowance Store.empty [4] [5] = .ok 0 :=
  ⟨c3_absent_reads_zero.1 Store.empty [4] rfl,
   c3_absent_reads_zero.2 Store.empty [4] [5] rfl⟩

/-- C4: writing an allowance for owner `A` and spender `X` leaves the
allowance of any distinct owner `B` for the same spender `X` unchanged, with
no assumption on the byte shapes of `A` and `B` (shared prefixes included):
the length-prefixed owner sub-namespaces never collide. -/
theorem c4_allowance_isolation (store : Store) (A B X : List Nat)
    (amount : Nat) (hAB : A ≠ B) :
    get_allowance (set_allowance store A X amount) B X =
      get_allowance store B X := by
  have hkey : to_length_prefixed ALLOWANCE_NS ++ (to_length_prefixed B ++ X) ≠
      to_length_prefixed ALLOWANCE_NS ++ (to_length_prefixed A ++ X) := by
    intro h
    have h2 : to_length_prefixed B ++ X = to_length_prefixed A ++ X :=
      List.append_cancel_left h
    exact hAB (lp_append_inj B A X h2).symm
  simp [get_allowance, set_allowance, to_u128, prefixView, Store.set, hkey]

/-- Witness for C4: owners `[1]` and `[2]`, spender `[3]`, amount 5 over the
empty store. -/
theorem c4_witness :
    ([1] : List Nat) ≠ [2] ∧
    get_allowance (set_allowance Store.empty [1] [3] 5) [2] [3] =
      get_allowance Store.empty [2] [3] :=
  ⟨by decide, c4_allowance_isolation Store.empty [1] [2] [3] 5 (by decide)⟩

/-- C5: for every owner and snapshot `s`, `set_borrow_balance owner (some s)`
followed by `get_borrow_balance owner` returns `some s`; a subsequent
`set_borrow_balance owner none` makes `get_borrow_balance owner` return
`none` (the stored `null` document does not deserialize as a snapshot), and
that result coincides with `get_borrow_balance` on any store in which the
owner's borrow key was never written. -/
theorem c5_borrow_lifecycle (store : Store) (owner : List Nat)
    (s : BorrowSnapshot) :
    get_borrow_balance (set_borrow_balance store owner (some s)) owner =
      some s ∧
    get_borrow_balance
      (set_borrow_balance (set_borrow_balance store owner (some s)) owner none)
      owner = none ∧
    (∀ fresh : Store, fresh (borrowKey owner) = none →
      get_borrow_balance fresh owner =
        get_borrow_balance
          (set_borrow_balance (set_borrow_balance store owner (some s)) owner
            none) owner) := by
  refine ⟨?_, ?_, ?_⟩
  · simp [get_borrow_balance, set_borrow_balance, Store.set, encOptSnapshot,
      decSnapshot_encSnapshot]
  · simp [get_borrow_balance, set_borrow_balance, Store.set, encOptSnapshot,
      decSnapshot_nullBytes]
  · intro fresh hf
    simp [get_borrow_balance, set_borrow_balance, Store.set, encOptSnapshot,
      decSnapshot_nullBytes, hf]

/-- Witness for C5 with the spec's snapshot `{principal: 100,
interest_index: 1}`, owner `[1]`, over the empty store; the never-borrowed
store is the empty store itself. -/
theorem c5_witness :
    get_borrow_balance (set_borrow_balance Store.empty [1] (some ⟨100, 1⟩)) [1]
      = some ⟨100, 1⟩ ∧
    get_borrow_balance
      (set_borrow_balance (set_borrow_balance Store.empty [1] (some ⟨100, 1⟩))
        [1] none) [1] = none ∧
    get_borrow_balance Store.empty [1] =
      get_borrow_balance
        (set_borrow_balance (set_borrow_balance Store.empty [1]
          (some ⟨100, 1⟩)) [1] none) [1] :=
  ⟨(c5_borrow_lifecycle Store.empty [1] ⟨100, 1⟩).1,
   (c5_borrow_lifecycle Store.empty [1] ⟨100, 1⟩).2.1,
   (c5_borrow_lifecycle Store.empty [1] ⟨100, 1⟩).2.2 Store.empty rfl⟩

/-- C6: `get_borrow_balance` returns `none` both when the owner's key is
absent from the borrow namespace and when the stored bytes fail to
deserialize as a snapshot; its result type is `Option BorrowSnapshot`, so no
error can be surfaced in either case. -/
theorem c6_borrow_read_never_errs :
    (∀ (store : Store) (owner : List Nat),
      store (borrowKey owner) = none →
      get_borrow_balance store owner = none) ∧
    (∀ (store : Store) (owner : List Nat) (v : List Nat),
      store (borrowKey owner) = some v → decSnapshot v = none →
      get_borrow_balance store owner = none) := by
  constructor
  · intro store owner h
    simp [get_borrow_balance, h]
  · intro store owner v h hd
    simp [get_borrow_balance, h, hd]

/-- Witness for C6: the empty store (absent key) and a store holding one
undecodable byte under the borrow key, both at owner `[2]`. -/
theorem c6_witness :
    get_borrow_balance Store.empty [2] = none ∧
    get_borrow_balance corruptBorrowStore [2] = none :=
  ⟨c6_borrow_read_never_errs.1 Store.empty [2] rfl,
   c6_borrow_read_never_errs.2 corruptBorrowStore [2] [9] rfl rfl⟩

/-- C8: when the `Config` singleton's slot has never been written,
`get_config` returns the hard `NotFound` error for the `Config` type, and
`get_state` fails the same way when the `State` slot is missing; no default
value is synthesized in either case. -/
theorem c8_missing_singletons_not_found :
    (∀ store : Store, store configKey = none →
      get_config store = .err (.notFound "q_native::state::Config")) ∧
    (∀ store : Store, store stateKey = none →
      get_state store = .err (.notFound "q_native::state::State")) := by
  constructor
  · intro store h
    simp [get_config, h]
  · intro store h
    simp [get_state, h]

/-- Witness for C8 on the empty store. -/
theorem c8_witness :
    get_config Store.empty = .err (.notFound "q_native::state::Config") ∧
    get_state Store.empty = .err (.notFound "q_native::state::State") :=
  ⟨c8_missing_singletons_not_found.1 Store.empty rfl,
   c8_missing_singletons_not_found.2 Store.empty rfl⟩

/-- C9: `set_config` followed by `get_config` returns exactly the written
`Config`, every field included, and `set_state` followed by `get_state`
returns exactly the written `State`: each write serializes and overwrites
the whole struct, so no field is reset. -/
theorem c9_singleton_roundtrip :
    (∀ (store : Store) (c : Config),
      get_config (set_config store c) = .ok c) ∧
    (∀ (store : Store) (s : State),
      get_state (set_state store s) = .ok s) := by
  constructor
  · intro store c
    simp [get_config, set_config, Store.set, decConfig_encConfig]
  · intro store s
    simp [get_state, set_state, Store.set, decState_encState]
